import Mathlib

/-!
# DX7Dump: shallow embedding of `src/main.cpp`

This file embeds the DX7 sysex dump utility (`dx7dump`) in Lean 4 and
proves properties of its validator, bit-field decoder, renderer and
duplicate detector.  Bytes are modelled as `ℕ` (every byte read from a
file is `< 256`, but none of the properties below needs that bound);
machine arithmetic on `unsigned char` is modelled with explicit `% 256`.
-/

namespace DX7Dump

/-! ## Lookup tables (`onOff`, `curve`, `lfoWave`, `mode`, `note`) -/

/-- `onOff` from `main.cpp`: names for the two boolean-like codes. -/
def onOff (x : ℕ) : String :=
  if x > 1 then "*out of range*" else (["Off", "On"].getD x "")

/-- `curve` from `main.cpp`: names for the four level-scale curve codes. -/
def curve (x : ℕ) : String :=
  if x > 3 then "*out of range*" else (["-LIN", "-EXP", "+EXP", "+LIN"].getD x "")

/-- `lfoWave` from `main.cpp`: names for the six LFO waveform codes. -/
def lfoWave (x : ℕ) : String :=
  if x > 5 then "*out of range*"
  else (["Triangle", "Sawtooth Down", "Sawtooth Up", "Square", "Sine", "Sample and Hold"].getD x "")

/-- `mode` from `main.cpp`: names for the two oscillator-mode codes. -/
def mode (x : ℕ) : String :=
  if x > 1 then "*out of range*" else (["Ratio", "Fixed"].getD x "")

/-- The note-name table from `note` in `main.cpp`. -/
def notes : List String :=
  ["C", "C#", "D"] ++ ["D#", "E", "F"] ++ ["F#", "G", "G#"] ++ ["A", "A#"] ++ ["B"]

/-- `note` from `main.cpp`: the note name at index `x % 12` of the table. -/
def note (x : ℕ) : String := notes.getD (x % 12) ""

/-- `transpose` from `main.cpp`: note name plus octave `x / 12 + 1`,
with values above 48 rendered as the out-of-range sentinel. -/
def transpose (x : ℕ) : String :=
  if x > 48 then "*out of range*" else note x ++ toString (x / 12 + 1)

/-- `breakPoint` from `main.cpp`: note name of `x + 9` plus the octave
`((int) x - 3 + 12) / 12 - 1` (signed division; the dividend `x + 9` is
always positive, so every division convention agrees with C truncation). -/
def breakPoint (x : ℕ) : String :=
  if x > 99 then "*out of range*"
  else note (x + 9) ++ toString (((x : ℤ) - 3 + 12) / 12 - 1)

/-! ## The sysex message and its validator (`verify`) -/

/-- `DX7Sysex` from `main.cpp`.  In `verify` and `findDuplicates` the
32 voice records are reinterpreted as 4096 raw payload bytes, so the
payload is modelled as the raw bytes directly. -/
structure DX7Sysex where
  sysexBeginF0 : ℕ
  yamaha43 : ℕ
  subStatusAndChannel : ℕ
  format9 : ℕ
  sizeMsb : ℕ
  sizeLsb : ℕ
  voices : Fin 4096 → ℕ
  checksum : ℕ
  sysexEndF7 : ℕ

/-- The distinct error reasons printed by `verify`, one per failing check,
in source order. -/
inductive VerifyError where
  | noStart       -- "Did not find sysex start 0xF0."
  | noYamaha      -- "Did not find Yamaha 0x43."
  | noSubStatus   -- "Did not find substatus 0 and channel 1."
  | noFormat      -- "Did not find format 9 (32 voices)."
  | noSize        -- "Did not find size 4096."
  | noEnd         -- "Did not find sysex end 0xF7."
  | badChecksum   -- "Checksum failed: ..."
deriving DecidableEq

/-- The checksum accumulation loop of `verify`: `unsigned char sum = 0;`
then `sum += (p[i] & 0x7F);` over all 4096 payload bytes (the running
sum wraps modulo 256). -/
def sumBytes (payload : Fin 4096 → ℕ) : ℕ :=
  (List.finRange 4096).foldl (fun s i => (s + payload i % 128) % 256) 0

/-- The checksum value computed by `verify`: two's complement of the
running 8-bit sum (`(~sum) + 1` on `unsigned char`), masked to 7 bits. -/
def computedChecksum (payload : Fin 4096 → ℕ) : ℕ :=
  ((255 - sumBytes payload) + 1) % 256 % 128

/-- `verify` from `main.cpp`: the seven checks in source order,
short-circuiting at the first failure; `none` means the message is valid. -/
def verify (s : DX7Sysex) : Option VerifyError :=
  if s.sysexBeginF0 ≠ 0xF0 then some .noStart
  else if s.yamaha43 ≠ 0x43 then some .noYamaha
  else if s.subStatusAndChannel ≠ 0 then some .noSubStatus
  else if s.format9 ≠ 0x09 then some .noFormat
  else if s.sizeMsb ≠ 0x20 ∨ s.sizeLsb ≠ 0 then some .noSize
  else if s.sysexEndF7 ≠ 0xF7 then some .noEnd
  else if computedChecksum s.voices ≠ s.checksum then some .badChecksum
  else none

/-- Modelled from the spec's checksum description (for comparison with
`computedChecksum`): sum all 4096 payload bytes, masking each to its low
7 bits before adding, take the two's complement of the unbounded sum and
mask the result to 7 bits — i.e. the value `(-S) mod 128`. -/
def specChecksum (payload : Fin 4096 → ℕ) : ℕ :=
  (128 - (∑ i : Fin 4096, payload i % 128) % 128) % 128

/-- The six marker checks of `verify` that precede the checksum check. -/
def headersOk (s : DX7Sysex) : Prop :=
  s.sysexBeginF0 = 0xF0 ∧ s.yamaha43 = 0x43 ∧ s.subStatusAndChannel = 0 ∧
    s.format9 = 0x09 ∧ (s.sizeMsb = 0x20 ∧ s.sizeLsb = 0) ∧ s.sysexEndF7 = 0xF7

lemma foldl_add_mod (f : Fin 4096 → ℕ) (bs : List (Fin 4096)) :
    ∀ a : ℕ,
      bs.foldl (fun s i => (s + f i) % 256) (a % 256) = (a + (bs.map f).sum) % 256 := by
  induction bs with
  | nil => exact fun a => by simp
  | cons x xs ih =>
      intro a
      have h1 : (a % 256 + f x) % 256 = (a + f x) % 256 := by
        conv_rhs => rw [Nat.add_mod]
        rw [Nat.add_mod, Nat.mod_mod_of_dvd]
        exact dvd_refl 256
      simp only [List.foldl_cons, List.map_cons, List.sum_cons]
      rw [h1, ih (a + f x), Nat.add_assoc]

lemma sumBytes_eq (payload : Fin 4096 → ℕ) :
    sumBytes payload = (∑ i : Fin 4096, payload i % 128) % 256 := by
  have h := foldl_add_mod (fun i => payload i % 128) (List.finRange 4096) 0
  simp only [Nat.zero_mod, Nat.zero_add] at h
  rw [sumBytes, h, Fin.sum_univ_def]

/-- The wrapped 8-bit checksum computed by the code agrees with the
checksum described by the spec over the unbounded sum. -/
lemma computedChecksum_eq_specChecksum (payload : Fin 4096 → ℕ) :
    computedChecksum payload = specChecksum payload := by
  rw [computedChecksum, specChecksum, sumBytes_eq]
  set S := ∑ i : Fin 4096, payload i % 128 with hS
  have h1 : S % 256 < 256 := Nat.mod_lt _ (by norm_num)
  have h2 : S % 256 % 128 = S % 128 := Nat.mod_mod_of_dvd _ (by norm_num)
  omega

lemma verify_eq_none_of_headers (s : DX7Sysex) (h : headersOk s) :
    verify s = if computedChecksum s.voices ≠ s.checksum then some .badChecksum else none := by
  obtain ⟨e1, e2, e3, e4, ⟨e5, e6⟩, e7⟩ := h
  rw [verify]
  split_ifs <;> first | rfl | omega

/-! ## Bit-field decoder (`OperatorPacked`, `VoicePacked`)

The C++ source reads the packed records through `unsigned char` bit-fields.
On the targeted ABI bit-fields are allocated from the least significant bit
of each byte, so a field of width `w` at bit offset `o` of byte `b` decodes
as `b / 2^o % 2^w`; full-byte fields are the byte itself. -/

/-- One decoded operator record (`OperatorPacked`, 17 bytes on disk). -/
structure DecodedOperator where
  egRate1 : ℕ
  egRate2 : ℕ
  egRate3 : ℕ
  egRate4 : ℕ
  egLevel1 : ℕ
  egLevel2 : ℕ
  egLevel3 : ℕ
  egLevel4 : ℕ
  levelScaleBreakPoint : ℕ
  levelScaleLeftDepth : ℕ
  levelScaleRightDepth : ℕ
  levelScaleLeftCurve : ℕ
  levelScaleRightCurve : ℕ
  oscillatorRateScale : ℕ
  detune : ℕ
  amplitudeModulationSensitivity : ℕ
  keyVelocitySensitivity : ℕ
  outputLevel : ℕ
  oscillatorMode : ℕ
  frequencyCoarse : ℕ
  frequencyFine : ℕ
deriving DecidableEq

/-- Decode one operator from its 17 raw bytes (`OperatorPacked` layout). -/
def decodeOperator (b : Fin 17 → ℕ) : DecodedOperator where
  egRate1 := b ⟨0, by omega⟩
  egRate2 := b ⟨1, by omega⟩
  egRate3 := b ⟨2, by omega⟩
  egRate4 := b ⟨3, by omega⟩
  egLevel1 := b ⟨4, by omega⟩
  egLevel2 := b ⟨5, by omega⟩
  egLevel3 := b ⟨6, by omega⟩
  egLevel4 := b ⟨7, by omega⟩
  levelScaleBreakPoint := b ⟨8, by omega⟩
  levelScaleLeftDepth := b ⟨9, by omega⟩
  levelScaleRightDepth := b ⟨10, by omega⟩
  levelScaleLeftCurve := b ⟨11, by omega⟩ % 4
  levelScaleRightCurve := b ⟨11, by omega⟩ / 4 % 4
  oscillatorRateScale := b ⟨12, by omega⟩ % 8
  detune := b ⟨12, by omega⟩ / 8 % 16
  amplitudeModulationSensitivity := b ⟨13, by omega⟩ % 4
  keyVelocitySensitivity := b ⟨13, by omega⟩ / 4 % 8
  outputLevel := b ⟨14, by omega⟩
  oscillatorMode := b ⟨15, by omega⟩ % 2
  frequencyCoarse := b ⟨15, by omega⟩ / 2 % 32
  frequencyFine := b ⟨16, by omega⟩

/-- One decoded voice record (`VoicePacked`, 128 bytes on disk). -/
structure DecodedVoice where
  operators : Fin 6 → DecodedOperator
  pitchEgRate1 : ℕ
  pitchEgRate2 : ℕ
  pitchEgRate3 : ℕ
  pitchEgRate4 : ℕ
  pitchEgLevel1 : ℕ
  pitchEgLevel2 : ℕ
  pitchEgLevel3 : ℕ
  pitchEgLevel4 : ℕ
  algorithm : ℕ
  feedback : ℕ
  oscillatorKeySync : ℕ
  lfoRate : ℕ
  lfoDelay : ℕ
  lfoPitchModulationDepth : ℕ
  lfoAmplitudeModulationDepth : ℕ
  lfoKeySync : ℕ
  lfoWaveField : ℕ
  lfoPitchModulationSensitivity : ℕ
  transposeField : ℕ
  name : Fin 10 → ℕ

/-- The 17 raw bytes of disk slot `j` (0-based) within a voice's
6-operator block: `voice->operators[j]` viewed as bytes. -/
def operatorSlot (v : Fin 128 → ℕ) (j : Fin 6) : Fin 17 → ℕ :=
  fun k => v ⟨17 * j.val + k.val, by have hj := j.isLt; have hk := k.isLt; omega⟩

/-- Decode one voice from its 128 raw bytes (`VoicePacked` layout). -/
def decodeVoice (v : Fin 128 → ℕ) : DecodedVoice where
  operators := fun j => decodeOperator (operatorSlot v j)
  pitchEgRate1 := v ⟨102, by omega⟩
  pitchEgRate2 := v ⟨103, by omega⟩
  pitchEgRate3 := v ⟨104, by omega⟩
  pitchEgRate4 := v ⟨105, by omega⟩
  pitchEgLevel1 := v ⟨106, by omega⟩
  pitchEgLevel2 := v ⟨107, by omega⟩
  pitchEgLevel3 := v ⟨108, by omega⟩
  pitchEgLevel4 := v ⟨109, by omega⟩
  algorithm := v ⟨110, by omega⟩ % 32
  feedback := v ⟨111, by omega⟩ % 8
  oscillatorKeySync := v ⟨111, by omega⟩ / 8 % 2
  lfoRate := v ⟨112, by omega⟩
  lfoDelay := v ⟨113, by omega⟩
  lfoPitchModulationDepth := v ⟨114, by omega⟩
  lfoAmplitudeModulationDepth := v ⟨115, by omega⟩
  lfoKeySync := v ⟨116, by omega⟩ % 2
  lfoWaveField := v ⟨116, by omega⟩ / 2 % 8
  lfoPitchModulationSensitivity := v ⟨116, by omega⟩ / 16 % 16
  transposeField := v ⟨117, by omega⟩
  name := fun k => v ⟨118 + k.val, by have := k.isLt; omega⟩

/-! ## Renderer (`format`) -/

/-- `std::setfill('0') << std::setw(2)` applied to a decimal number:
zero-pad to width 2 (wider numbers print unpadded). -/
def pad2 (n : ℕ) : String :=
  if n < 10 then "0" ++ toString n else toString n

/-- The exponent computed in fixed mode:
`(frequencyCoarse % 4) + frequencyFine / 100`. -/
def fixedModePower (coarse fine : ℕ) : ℚ :=
  ((coarse % 4 : ℕ) : ℚ) + (fine : ℚ) / 100

/-- The Hz value printed in fixed mode: `pow(10, power)`. -/
noncomputable def fixedModeFrequency (coarse fine : ℕ) : ℝ :=
  (10 : ℝ) ^ ((fixedModePower coarse fine : ℚ) : ℝ)

/-- The "Frequency Course" line's payload: in ratio mode the raw coarse
value, 2-digit zero-padded; in fixed mode the number printed as
`pow(10, power)` followed by " Hz" (represented by its exponent; the
printed value is `fixedModeFrequency`). -/
inductive FreqDisplay where
  | ratio (printed : String)
  | fixedHz (power : ℚ)
deriving DecidableEq

/-- One line of rendered output: plain text, or the frequency line whose
numeric part is a floating-point value. -/
inductive Line where
  | text (s : String)
  | freq (f : FreqDisplay)
deriving DecidableEq

/-- The branch on `op.oscillatorMode` in `format` (lines 368–378 of
`main.cpp`). -/
def frequencyCourseLine (op : DecodedOperator) : FreqDisplay :=
  if op.oscillatorMode = 0 then .ratio (pad2 op.frequencyCoarse)
  else .fixedHz (fixedModePower op.frequencyCoarse op.frequencyFine)

/-- The rendered block of one operator as printed by `format`, with the
heading `"Operator NN: "` for the 1-based logical operator number. -/
structure OperatorBlock where
  heading : String
  lines : List Line
deriving DecidableEq

/-- Render one operator's block (loop body of `format`, lines 331–381). -/
def renderOperator (displayNumber : ℕ) (op : DecodedOperator) : OperatorBlock where
  heading := "Operator " ++ pad2 displayNumber ++ ": "
  lines :=
    [.text "  Envelope Generator:",
     .text ("    Rate 1: " ++ pad2 op.egRate1),
     .text ("    Rate 2: " ++ pad2 op.egRate2),
     .text ("    Rate 3: " ++ pad2 op.egRate3),
     .text ("    Rate 4: " ++ pad2 op.egRate4),
     .text ("    Level 1: " ++ pad2 op.egLevel1),
     .text ("    Level 2: " ++ pad2 op.egLevel2),
     .text ("    Level 3: " ++ pad2 op.egLevel3),
     .text ("    Level 4: " ++ pad2 op.egLevel4),
     .text "  Level Scale:",
     .text ("    Break Point: " ++ pad2 op.levelScaleBreakPoint ++
            " (" ++ breakPoint op.levelScaleBreakPoint ++ ")"),
     .text ("    Left Depth: " ++ pad2 op.levelScaleLeftDepth),
     .text ("    Right Depth: " ++ pad2 op.levelScaleRightDepth),
     .text ("    Left Curve: " ++ pad2 op.levelScaleLeftCurve ++
            " (" ++ curve op.levelScaleLeftCurve ++ ")"),
     .text ("    Right Curve: " ++ pad2 op.levelScaleRightCurve ++
            " (" ++ curve op.levelScaleRightCurve ++ ")"),
     .text ("  Oscillator Rate Scale: " ++ pad2 op.oscillatorRateScale),
     .text ("  Amp Mod Sense: " ++ pad2 op.amplitudeModulationSensitivity),
     .text ("  Key Velocity Sense: " ++ pad2 op.keyVelocitySensitivity),
     .text ("  Output Level: " ++ pad2 op.outputLevel),
     .text ("  Oscillator Mode: " ++ pad2 op.oscillatorMode ++
            " (" ++ mode op.oscillatorMode ++ ")"),
     .freq (frequencyCourseLine op),
     .text ("  Frequency Fine: " ++ pad2 op.frequencyFine),
     .text ("  Detune: " ++ pad2 op.detune)]

/-- The 10-byte name rendered as text (bytes passed through as chars). -/
def nameString (n : Fin 10 → ℕ) : String :=
  String.mk ((List.finRange 10).map (fun k => Char.ofNat (n k)))

/-- The long-form block of one voice as printed by `format`
(lines 296–384 of `main.cpp`), in output order. -/
structure VoiceBlock where
  filenameLine : Line
  voiceLine : Line
  nameLine : Line
  algorithmLine : Line
  pitchEgLines : List Line
  feedbackLine : Line
  oscKeySyncLine : Line
  lfoLines : List Line
  pitchModSenseLine : Line
  transposeLine : Line
  operatorBlocks : Fin 6 → OperatorBlock

/-- Render one voice's long-form block.  The operator block displayed
under heading `i+1` is built from `operators[5 - i]` ("Operators are
stored in backwards order", `main.cpp` line 334). -/
def renderVoice (filename : String) (voiceNumber : ℕ) (d : DecodedVoice) : VoiceBlock where
  filenameLine := .text ("Filename: " ++ filename)
  voiceLine := .text ("Voice: " ++ pad2 voiceNumber)
  nameLine := .text ("Name: " ++ nameString d.name)
  algorithmLine := .text ("Algorithm: " ++ pad2 (d.algorithm + 1))
  pitchEgLines :=
    [.text ("  Rate 1: " ++ pad2 d.pitchEgRate1),
     .text ("  Rate 2: " ++ pad2 d.pitchEgRate2),
     .text ("  Rate 3: " ++ pad2 d.pitchEgRate3),
     .text ("  Rate 4: " ++ pad2 d.pitchEgRate4),
     .text ("  Level 1: " ++ pad2 d.pitchEgLevel1),
     .text ("  Level 2: " ++ pad2 d.pitchEgLevel2),
     .text ("  Level 3: " ++ pad2 d.pitchEgLevel3),
     .text ("  Level 4: " ++ pad2 d.pitchEgLevel4)]
  feedbackLine := .text ("Feedback: " ++ pad2 d.feedback)
  oscKeySyncLine := .text ("Oscillator Key Sync: " ++ pad2 d.oscillatorKeySync ++
    " (" ++ onOff d.oscillatorKeySync ++ ")")
  lfoLines :=
    [.text ("  Rate: " ++ pad2 d.lfoRate),
     .text ("  Delay: " ++ pad2 d.lfoDelay),
     .text ("  Amp Mod Depth: " ++ pad2 d.lfoAmplitudeModulationDepth),
     .text ("  Pitch Mod Depth: " ++ pad2 d.lfoPitchModulationDepth),
     .text ("  Key Sync: " ++ pad2 d.lfoKeySync ++ " (" ++ onOff d.lfoKeySync ++ ")"),
     .text ("  Wave: " ++ pad2 d.lfoWaveField ++ " (" ++ lfoWave d.lfoWaveField ++ ")")]
  pitchModSenseLine := .text ("Pitch Mod Sense: " ++ pad2 d.lfoPitchModulationSensitivity)
  transposeLine := .text ("Transpose: " ++ pad2 d.transposeField ++
    " (" ++ transpose d.transposeField ++ ")")
  operatorBlocks := fun i =>
    renderOperator (i.val + 1) (d.operators ⟨5 - i.val, by omega⟩)

/-- The voice slots emitted by `format`'s main loop: slot `v` (0-based)
is skipped iff `patchToDisplay >= 0 && patchToDisplay != v + 1`
(`main.cpp` line 283). -/
def emittedIndices (patchToDisplay : ℤ) : List (Fin 32) :=
  (List.finRange 32).filter
    (fun v => !(decide (0 ≤ patchToDisplay) && decide (patchToDisplay ≠ (v.val : ℤ) + 1)))

/-- `format` in long-listing mode: one rendered block per emitted voice,
in slot order. -/
def formatLong (filename : String) (bank : Fin 32 → Fin 128 → ℕ)
    (patchToDisplay : ℤ) : List VoiceBlock :=
  (emittedIndices patchToDisplay).map
    (fun v => renderVoice filename (v.val + 1) (decodeVoice (bank v)))

/-! ## Duplicate detector (`findDuplicates`) -/

/-- The `memcmp` of `findDuplicates`: compare the first
`sizeof(VoicePacked) - 10 = 118` bytes of two voice records. -/
def voiceMatch (a b : Fin 128 → ℕ) : Bool :=
  (List.finRange 118).all
    (fun k => a (Fin.castLE (by norm_num) k) == b (Fin.castLE (by norm_num) k))

/-- `findDuplicates` from `main.cpp`: the double loop (outer `i`, inner
`j` from `i + 1`) reporting each matching pair as 1-based voice numbers.
(The C++ outer loop stops at `i = 30`; iteration `i = 31` has an empty
inner range, so enumerating all of `0..31` yields the same output.) -/
def findDuplicates (bank : Fin 32 → Fin 128 → ℕ) : List (ℕ × ℕ) :=
  (List.finRange 32).flatMap (fun i =>
    (((List.finRange 32).filter (fun j => decide (i < j) && voiceMatch (bank i) (bank j))).map
      (fun j => (i.val + 1, j.val + 1))))

/-! ## Theorems -/

/-- A valid all-zero bank: correct markers, zero payload, checksum 0. -/
def zeroSysex : DX7Sysex where
  sysexBeginF0 := 0xF0
  yamaha43 := 0x43
  subStatusAndChannel := 0
  format9 := 0x09
  sizeMsb := 0x20
  sizeLsb := 0
  voices := fun _ => 0
  checksum := 0
  sysexEndF7 := 0xF7

lemma specChecksum_lt (payload : Fin 4096 → ℕ) : specChecksum payload < 128 :=
  Nat.mod_lt _ (by norm_num)

/-- C1: with the six marker checks passing, the validator accepts iff the
stored checksum byte equals the two's complement of the sum of all 4096
payload bytes (each masked to its low 7 bits before adding), masked to
7 bits; and recomputing that checksum on any accepted message yields the
stored byte. -/
theorem checksum_accept_iff (s : DX7Sysex) (h : headersOk s) :
    (verify s = none ↔ s.checksum = specChecksum s.voices) ∧
    (verify s = none → specChecksum s.voices = s.checksum) := by
  rw [verify_eq_none_of_headers s h, computedChecksum_eq_specChecksum]
  by_cases hc : specChecksum s.voices = s.checksum
  · rw [if_neg (by simpa using hc)]
    simp [hc.symm]
  · rw [if_pos (by simpa using hc)]
    exact ⟨⟨fun hv => absurd hv (by simp), fun he => absurd he.symm hc⟩,
      fun hv => absurd hv (by simp)⟩

theorem checksum_accept_iff_witness :
    headersOk zeroSysex ∧
      ((verify zeroSysex = none ↔ zeroSysex.checksum = specChecksum zeroSysex.voices) ∧
        (verify zeroSysex = none → specChecksum zeroSysex.voices = zeroSysex.checksum)) :=
  ⟨by and_intros <;> rfl, checksum_accept_iff zeroSysex (by and_intros <;> rfl)⟩

set_option maxRecDepth 4000 in
/-- C2 (amended): the seven checks run in source order with
short-circuiting, each failure yielding its own distinct error; a buffer
that passes the start-marker check and fails both the vendor-marker and
checksum checks reports the vendor-marker error. -/
theorem verify_order_characterization (s : DX7Sysex) :
    (verify s = some .noStart ↔ s.sysexBeginF0 ≠ 0xF0) ∧
    (verify s = some .noYamaha ↔ s.sysexBeginF0 = 0xF0 ∧ s.yamaha43 ≠ 0x43) ∧
    (verify s = some .noSubStatus ↔
      s.sysexBeginF0 = 0xF0 ∧ s.yamaha43 = 0x43 ∧ s.subStatusAndChannel ≠ 0) ∧
    (verify s = some .noFormat ↔
      s.sysexBeginF0 = 0xF0 ∧ s.yamaha43 = 0x43 ∧ s.subStatusAndChannel = 0 ∧
        s.format9 ≠ 0x09) ∧
    (verify s = some .noSize ↔
      s.sysexBeginF0 = 0xF0 ∧ s.yamaha43 = 0x43 ∧ s.subStatusAndChannel = 0 ∧
        s.format9 = 0x09 ∧ (s.sizeMsb ≠ 0x20 ∨ s.sizeLsb ≠ 0)) ∧
    (verify s = some .noEnd ↔
      s.sysexBeginF0 = 0xF0 ∧ s.yamaha43 = 0x43 ∧ s.subStatusAndChannel = 0 ∧
        s.format9 = 0x09 ∧ (s.sizeMsb = 0x20 ∧ s.sizeLsb = 0) ∧ s.sysexEndF7 ≠ 0xF7) ∧
    (verify s = some .badChecksum ↔ headersOk s ∧ s.checksum ≠ specChecksum s.voices) ∧
    (verify s = none ↔ headersOk s ∧ s.checksum = specChecksum s.voices) ∧
    (s.sysexBeginF0 = 0xF0 → s.yamaha43 ≠ 0x43 → s.checksum ≠ specChecksum s.voices →
      verify s = some .noYamaha) := by
  have hcs := computedChecksum_eq_specChecksum s.voices
  unfold verify
  split_ifs with h1 h2 h3 h4 h5 h6 h7 <;>
    simp_all [headersOk, eq_comm, ne_comm]
  all_goals omega

theorem verify_order_characterization_witness :
    verify zeroSysex = some VerifyError.noStart ↔ zeroSysex.sysexBeginF0 ≠ 0xF0 :=
  (verify_order_characterization zeroSysex).1

/-- A buffer failing the start-marker, vendor-marker and checksum checks
simultaneously. -/
def badStartSysex : DX7Sysex where
  sysexBeginF0 := 0
  yamaha43 := 0
  subStatusAndChannel := 0
  format9 := 0x09
  sizeMsb := 0x20
  sizeLsb := 0
  voices := fun _ => 0
  checksum := 200
  sysexEndF7 := 0xF7

/-- C2 counterexample: this buffer fails both the vendor-marker check and
the checksum check, yet the reported error is the start-marker error, not
the vendor-marker error (the claim as stated does not hold when the
start-marker check also fails). -/
theorem verify_vendor_checksum_counterexample :
    badStartSysex.yamaha43 ≠ 0x43 ∧
      badStartSysex.checksum ≠ specChecksum badStartSysex.voices ∧
      verify badStartSysex = some VerifyError.noStart ∧
      verify badStartSysex ≠ some VerifyError.noYamaha := by
  have hlt := specChecksum_lt badStartSysex.voices
  have hc : badStartSysex.checksum = 200 := rfl
  refine ⟨by decide, by omega, rfl, ?_⟩
  rw [show verify badStartSysex = some VerifyError.noStart from rfl]
  decide

/-- C3: the operator block rendered under heading "Operator i+1" is built
from the operator decoded from disk slot `5 - i` (0-based) of the voice's
6-operator block; in particular "Operator 01" renders disk slot 5. -/
theorem operator_display_mapping (v : Fin 128 → ℕ) (filename : String)
    (voiceNumber : ℕ) (i : Fin 6) :
    (renderVoice filename voiceNumber (decodeVoice v)).operatorBlocks i =
      renderOperator (i.val + 1) (decodeOperator (operatorSlot v ⟨5 - i.val, by omega⟩)) ∧
    ((renderVoice filename voiceNumber (decodeVoice v)).operatorBlocks i).heading =
      "Operator " ++ pad2 (i.val + 1) ++ ": " ∧
    (renderVoice filename voiceNumber (decodeVoice v)).operatorBlocks ⟨0, by omega⟩ =
      renderOperator 1 (decodeOperator (operatorSlot v ⟨5, by omega⟩)) := by
  and_intros <;> rfl

/-- C4: transpose values `x ≤ 48` render as the note name at index
`x % 12` of the note table followed by octave `x / 12 + 1`; values above
48 render as the out-of-range sentinel; concretely 0 ↦ "C1", 12 ↦ "C2",
48 ↦ "C5", 49 ↦ "*out of range*". -/
theorem transpose_rendering (x : ℕ) :
    (x ≤ 48 → transpose x = notes.getD (x % 12) "" ++ toString (x / 12 + 1)) ∧
    (48 < x → transpose x = "*out of range*") ∧
    transpose 0 = "C1" ∧ transpose 12 = "C2" ∧ transpose 48 = "C5" ∧
    transpose 49 = "*out of range*" := by
  have hin : x ≤ 48 → transpose x = notes.getD (x % 12) "" ++ toString (x / 12 + 1) := by
    intro h
    rw [transpose, if_neg (by omega)]
    rfl
  have hout : 48 < x → transpose x = "*out of range*" := by
    intro h
    rw [transpose, if_pos (by omega)]
  exact ⟨hin, hout, by decide, rfl, by decide, rfl⟩

theorem transpose_rendering_witness :
    ((0 : ℕ) ≤ 48 ∧ transpose 0 = notes.getD (0 % 12) "" ++ toString (0 / 12 + 1)) ∧
    (48 < 49 ∧ transpose 49 = "*out of range*") :=
  ⟨⟨by decide, (transpose_rendering 0).1 (by decide)⟩,
    ⟨by decide, (transpose_rendering 49).2.1 (by decide)⟩⟩

/-- C5: breakpoint values `x ≤ 99` render as the note name at index
`(x + 9) % 12` of the note table followed by octave
`((x - 3 + 12) / 12) - 1` (signed integer division); values above 99
render as the out-of-range sentinel; concretely 0 ↦ "A-1". -/
theorem breakPoint_rendering (x : ℕ) :
    (x ≤ 99 → breakPoint x =
      notes.getD ((x + 9) % 12) "" ++ toString ((((x : ℤ) - 3 + 12) / 12) - 1)) ∧
    (99 < x → breakPoint x = "*out of range*") ∧
    breakPoint 0 = "A-1" := by
  have hin : x ≤ 99 → breakPoint x =
      notes.getD ((x + 9) % 12) "" ++ toString ((((x : ℤ) - 3 + 12) / 12) - 1) := by
    intro h
    rw [breakPoint, if_neg (by omega)]
    rfl
  have hout : 99 < x → breakPoint x = "*out of range*" := by
    intro h
    rw [breakPoint, if_pos (by omega)]
  exact ⟨hin, hout, by decide⟩

theorem breakPoint_rendering_witness :
    ((0 : ℕ) ≤ 99 ∧ breakPoint 0 =
      notes.getD ((0 + 9) % 12) "" ++ toString (((((0 : ℕ) : ℤ) - 3 + 12) / 12) - 1)) ∧
    (99 < 100 ∧ breakPoint 100 = "*out of range*") :=
  ⟨⟨by decide, (breakPoint_rendering 0).1 (by decide)⟩,
    ⟨by decide, (breakPoint_rendering 100).2.1 (by decide)⟩⟩

/-- C6: the frequency line depends on the oscillator mode — mode 0 prints
the raw coarse value 2-digit zero-padded, mode 1 prints
`10 ^ (coarse % 4 + fine / 100)` in Hz; concretely the fixed-mode value
for coarse 0, fine 0 is 1 and for coarse 1, fine 0 is 10. -/
theorem frequency_line_rendering (op : DecodedOperator) :
    (op.oscillatorMode = 0 →
      frequencyCourseLine op = .ratio (pad2 op.frequencyCoarse)) ∧
    (op.oscillatorMode = 1 →
      frequencyCourseLine op =
        .fixedHz (fixedModePower op.frequencyCoarse op.frequencyFine)) ∧
    fixedModeFrequency 0 0 = 1 ∧ fixedModeFrequency 1 0 = 10 := by
  have hratio : op.oscillatorMode = 0 →
      frequencyCourseLine op = .ratio (pad2 op.frequencyCoarse) := by
    intro h
    rw [frequencyCourseLine, if_pos h]
  have hfixed : op.oscillatorMode = 1 →
      frequencyCourseLine op =
        .fixedHz (fixedModePower op.frequencyCoarse op.frequencyFine) := by
    intro h
    rw [frequencyCourseLine, if_neg (by omega)]
  have hone : fixedModeFrequency 0 0 = 1 := by
    rw [fixedModeFrequency,
      show fixedModePower 0 0 = 0 from by norm_num [fixedModePower]]
    rw [Rat.cast_zero, Real.rpow_zero]
  have hten : fixedModeFrequency 1 0 = 10 := by
    rw [fixedModeFrequency,
      show fixedModePower 1 0 = 1 from by norm_num [fixedModePower]]
    rw [Rat.cast_one, Real.rpow_one]
  exact ⟨hratio, hfixed, hone, hten⟩

/-- An all-zero operator record: oscillator mode 0 (ratio). -/
def ratioOp : DecodedOperator := decodeOperator (fun _ => 0)

/-- An operator record whose byte 15 is 1: oscillator mode 1 (fixed). -/
def fixedOp : DecodedOperator := decodeOperator (fun k => if k.val = 15 then 1 else 0)

theorem frequency_line_rendering_witness :
    (ratioOp.oscillatorMode = 0 ∧
      frequencyCourseLine ratioOp = .ratio (pad2 ratioOp.frequencyCoarse)) ∧
    (fixedOp.oscillatorMode = 1 ∧
      frequencyCourseLine fixedOp =
        .fixedHz (fixedModePower fixedOp.frequencyCoarse fixedOp.frequencyFine)) :=
  ⟨⟨by decide, (frequency_line_rendering ratioOp).1 (by decide)⟩,
    ⟨by decide, (frequency_line_rendering fixedOp).2.1 (by decide)⟩⟩

lemma voiceMatch_iff (a b : Fin 128 → ℕ) :
    voiceMatch a b = true ↔
      ∀ k : Fin 118, a (Fin.castLE (by norm_num) k) = b (Fin.castLE (by norm_num) k) := by
  simp [voiceMatch, List.all_eq_true]

lemma pairwise_flatMap {α β : Type} {R : α → α → Prop} {T : β → β → Prop} {g : α → List β}
    (ls : List α) : ls.Pairwise R → (∀ u ∈ ls, (g u).Pairwise T) →
      (∀ u w, R u w → ∀ x ∈ g u, ∀ y ∈ g w, T x y) → (ls.flatMap g).Pairwise T := by
  induction ls with
  | nil => exact fun _ _ _ => List.Pairwise.nil
  | cons p ps ih =>
      intro hp hall hcross
      rw [List.flatMap_cons]
      apply List.pairwise_append.mpr
      refine ⟨hall p (List.mem_cons_self p ps), ?_, ?_⟩
      · exact ih (List.pairwise_cons.mp hp).2
          (fun u hu => hall u (List.mem_cons_of_mem p hu)) hcross
      · intro x hx y hy
        obtain ⟨w, hw, hyw⟩ := List.mem_flatMap.mp hy
        exact hcross p w ((List.pairwise_cons.mp hp).1 w hw) x hx y hyw

/-- The lexicographic "report order" of the duplicate pairs. -/
def pairLexLt (p q : ℕ × ℕ) : Prop :=
  p.1 < q.1 ∨ (p.1 = q.1 ∧ p.2 < q.2)

/-- C7: the duplicate detector reports the 1-based pair (i+1, j+1) iff
i < j and the first 118 = sizeof(VoicePacked) - 10 bytes of the two voice
records agree (everything except the trailing 10-byte name); the report
list is strictly ascending in (outer, inner) order, so all matching pairs
appear, each exactly once, with no early termination. -/
theorem findDuplicates_characterization (bank : Fin 32 → Fin 128 → ℕ) (i j : Fin 32) :
    ((i.val + 1, j.val + 1) ∈ findDuplicates bank ↔
      (i < j ∧ ∀ k : Fin 118,
        bank i (Fin.castLE (by norm_num) k) = bank j (Fin.castLE (by norm_num) k))) ∧
    List.Pairwise pairLexLt (findDuplicates bank) := by
  constructor
  · constructor
    · intro h
      obtain ⟨a, ha, h2⟩ := List.mem_flatMap.mp h
      obtain ⟨b, hb, heq⟩ := List.mem_map.mp h2
      obtain ⟨hbmem, hpred⟩ := List.mem_filter.mp hb
      rw [Bool.and_eq_true, decide_eq_true_eq] at hpred
      have ea : a = i := Fin.ext (by
        have := congrArg Prod.fst heq
        simpa using this)
      have eb : b = j := Fin.ext (by
        have := congrArg Prod.snd heq
        simpa using this)
      subst ea
      subst eb
      exact ⟨hpred.1, (voiceMatch_iff (bank a) (bank b)).mp hpred.2⟩
    · rintro ⟨hij, hk⟩
      refine List.mem_flatMap.mpr ⟨i, List.mem_finRange i, List.mem_map.mpr
        ⟨j, List.mem_filter.mpr ⟨List.mem_finRange j, ?_⟩, rfl⟩⟩
      rw [Bool.and_eq_true, decide_eq_true_eq]
      exact ⟨hij, (voiceMatch_iff (bank i) (bank j)).mpr hk⟩
  · apply pairwise_flatMap (List.finRange 32) (List.pairwise_lt_finRange 32)
    · intro a _
      refine List.Pairwise.map _ ?_ (List.Pairwise.filter _ (List.pairwise_lt_finRange 32))
      intro x y hxy
      exact Or.inr ⟨rfl, by omega⟩
    · intro a b hab x hx y hy
      obtain ⟨xa, _, hxa⟩ := List.mem_map.mp hx
      obtain ⟨yb, _, hyb⟩ := List.mem_map.mp hy
      rw [← hxa, ← hyb]
      exact Or.inl (by simpa using Nat.add_lt_add_right hab 1)

lemma emittedIndices_singleton (n : ℕ) (hlow : 1 ≤ n) (hhigh : n ≤ 32) :
    emittedIndices (n : ℤ) = [⟨n - 1, by omega⟩] := by
  interval_cases n <;> rfl

/-- C8 (amended): when a patch number n with 1 ≤ n ≤ 32 is requested,
exactly voice n's long-form block is emitted; a requested non-negative
patch number outside 1–32 silently yields no voice output; a negative
requested patch number disables the filter and all 32 blocks are emitted. -/
theorem patch_filter (filename : String) (bank : Fin 32 → Fin 128 → ℕ)
    (n : ℕ) (hn1 : 1 ≤ n) (hn2 : n ≤ 32) (N : ℤ) :
    (formatLong filename bank (n : ℤ) =
      [renderVoice filename n (decodeVoice (bank ⟨n - 1, by omega⟩))]) ∧
    (0 ≤ N → (N = 0 ∨ 32 < N) → formatLong filename bank N = []) ∧
    (N < 0 → formatLong filename bank N =
      (List.finRange 32).map (fun v => renderVoice filename (v.val + 1) (decodeVoice (bank v)))) := by
  have hone : formatLong filename bank (n : ℤ) =
      [renderVoice filename n (decodeVoice (bank ⟨n - 1, by omega⟩))] := by
    rw [formatLong, emittedIndices_singleton n hn1 hn2, List.map_cons, List.map_nil,
      Nat.sub_add_cancel hn1]
  have hnone : 0 ≤ N → (N = 0 ∨ 32 < N) → formatLong filename bank N = [] := by
    intro h0 hout
    rw [formatLong, List.map_eq_nil_iff]
    rw [emittedIndices, List.filter_eq_nil_iff]
    intro a _
    simp only [Bool.not_eq_true', Bool.not_eq_false, Bool.and_eq_true, decide_eq_true_eq]
    have := a.isLt
    omega
  have hall : N < 0 → formatLong filename bank N =
      (List.finRange 32).map (fun v => renderVoice filename (v.val + 1) (decodeVoice (bank v))) := by
    intro hneg
    rw [formatLong, emittedIndices, List.filter_eq_self.mpr]
    intro a _
    simp only [Bool.not_eq_true', Bool.and_eq_false_iff, decide_eq_false_iff_not]
    left
    omega
  exact ⟨hone, hnone, hall⟩

theorem patch_filter_witness :
    ((1 : ℕ) ≤ 7 ∧ (7 : ℕ) ≤ 32) ∧
      formatLong "bank.syx" (fun _ _ => 0) ((7 : ℕ) : ℤ) =
        [renderVoice "bank.syx" 7 (decodeVoice (fun _ => 0))] :=
  ⟨⟨by decide, by decide⟩,
    (patch_filter "bank.syx" (fun _ _ => 0) 7 (by decide) (by decide) 0).1⟩

/-- C8 counterexample: the requested patch number -5 lies outside 1–32,
yet the renderer emits all 32 voice blocks rather than none. -/
theorem negative_patch_counterexample :
    (-5 : ℤ) < 1 ∧ (formatLong "bank.syx" (fun _ _ => 0) (-5)).length = 32 ∧
      formatLong "bank.syx" (fun _ _ => 0) (-5) ≠ [] := by
  have he : emittedIndices (-5) = List.finRange 32 := by decide
  have hlen : (formatLong "bank.syx" (fun _ _ => 0) (-5)).length = 32 := by
    rw [formatLong, List.length_map, he]
    exact List.length_finRange 32
  have hne : formatLong "bank.syx" (fun _ _ => 0) (-5) ≠ [] := by
    rw [formatLong, he]
    intro hcon
    rw [List.map_eq_nil_iff, List.finRange_eq_nil] at hcon
    omega
  exact ⟨by decide, hlen, hne⟩

/-- C9 (amended): in the long-form listing every raw numeric field is
printed as the 2-digit zero-padded decimal of its decoded raw value
(voice and operator numbers 2-digit zero-padded as well), with one
exception: the "Algorithm:" line prints the decoded 5-bit algorithm
field PLUS ONE, 2-digit zero-padded. -/
theorem long_listing_numeric_rendering (v : Fin 128 → ℕ) (filename : String)
    (num : ℕ) (i : Fin 6) :
    (renderVoice filename num (decodeVoice v)).voiceLine =
      .text ("Voice: " ++ pad2 num) ∧
    (renderVoice filename num (decodeVoice v)).algorithmLine =
      .text ("Algorithm: " ++ pad2 (v ⟨110, by omega⟩ % 32 + 1)) ∧
    (renderVoice filename num (decodeVoice v)).pitchEgLines =
      [.text ("  Rate 1: " ++ pad2 (v ⟨102, by omega⟩)),
       .text ("  Rate 2: " ++ pad2 (v ⟨103, by omega⟩)),
       .text ("  Rate 3: " ++ pad2 (v ⟨104, by omega⟩)),
       .text ("  Rate 4: " ++ pad2 (v ⟨105, by omega⟩)),
       .text ("  Level 1: " ++ pad2 (v ⟨106, by omega⟩)),
       .text ("  Level 2: " ++ pad2 (v ⟨107, by omega⟩)),
       .text ("  Level 3: " ++ pad2 (v ⟨108, by omega⟩)),
       .text ("  Level 4: " ++ pad2 (v ⟨109, by omega⟩))] ∧
    (renderVoice filename num (decodeVoice v)).feedbackLine =
      .text ("Feedback: " ++ pad2 (v ⟨111, by omega⟩ % 8)) ∧
    (renderVoice filename num (decodeVoice v)).oscKeySyncLine =
      .text ("Oscillator Key Sync: " ++ pad2 (v ⟨111, by omega⟩ / 8 % 2) ++
        " (" ++ onOff (v ⟨111, by omega⟩ / 8 % 2) ++ ")") ∧
    (renderVoice filename num (decodeVoice v)).lfoLines =
      [.text ("  Rate: " ++ pad2 (v ⟨112, by omega⟩)),
       .text ("  Delay: " ++ pad2 (v ⟨113, by omega⟩)),
       .text ("  Amp Mod Depth: " ++ pad2 (v ⟨115, by omega⟩)),
       .text ("  Pitch Mod Depth: " ++ pad2 (v ⟨114, by omega⟩)),
       .text ("  Key Sync: " ++ pad2 (v ⟨116, by omega⟩ % 2) ++
         " (" ++ onOff (v ⟨116, by omega⟩ % 2) ++ ")"),
       .text ("  Wave: " ++ pad2 (v ⟨116, by omega⟩ / 2 % 8) ++
         " (" ++ lfoWave (v ⟨116, by omega⟩ / 2 % 8) ++ ")")] ∧
    (renderVoice filename num (decodeVoice v)).pitchModSenseLine =
      .text ("Pitch Mod Sense: " ++ pad2 (v ⟨116, by omega⟩ / 16 % 16)) ∧
    (renderVoice filename num (decodeVoice v)).transposeLine =
      .text ("Transpose: " ++ pad2 (v ⟨117, by omega⟩) ++
        " (" ++ transpose (v ⟨117, by omega⟩) ++ ")") ∧
    ((renderVoice filename num (decodeVoice v)).operatorBlocks i).heading =
      "Operator " ++ pad2 (i.val + 1) ++ ": " ∧
    ((renderVoice filename num (decodeVoice v)).operatorBlocks i).lines =
      [.text "  Envelope Generator:",
       .text ("    Rate 1: " ++ pad2 (operatorSlot v ⟨5 - i.val, by omega⟩ ⟨0, by omega⟩)),
       .text ("    Rate 2: " ++ pad2 (operatorSlot v ⟨5 - i.val, by omega⟩ ⟨1, by omega⟩)),
       .text ("    Rate 3: " ++ pad2 (operatorSlot v ⟨5 - i.val, by omega⟩ ⟨2, by omega⟩)),
       .text ("    Rate 4: " ++ pad2 (operatorSlot v ⟨5 - i.val, by omega⟩ ⟨3, by omega⟩)),
       .text ("    Level 1: " ++ pad2 (operatorSlot v ⟨5 - i.val, by omega⟩ ⟨4, by omega⟩)),
       .text ("    Level 2: " ++ pad2 (operatorSlot v ⟨5 - i.val, by omega⟩ ⟨5, by omega⟩)),
       .text ("    Level 3: " ++ pad2 (operatorSlot v ⟨5 - i.val, by omega⟩ ⟨6, by omega⟩)),
       .text ("    Level 4: " ++ pad2 (operatorSlot v ⟨5 - i.val, by omega⟩ ⟨7, by omega⟩)),
       .text "  Level Scale:",
       .text ("    Break Point: " ++ pad2 (operatorSlot v ⟨5 - i.val, by omega⟩ ⟨8, by omega⟩) ++
         " (" ++ breakPoint (operatorSlot v ⟨5 - i.val, by omega⟩ ⟨8, by omega⟩) ++ ")"),
       .text ("    Left Depth: " ++ pad2 (operatorSlot v ⟨5 - i.val, by omega⟩ ⟨9, by omega⟩)),
       .text ("    Right Depth: " ++ pad2 (operatorSlot v ⟨5 - i.val, by omega⟩ ⟨10, by omega⟩)),
       .text ("    Left Curve: " ++ pad2 (operatorSlot v ⟨5 - i.val, by omega⟩ ⟨11, by omega⟩ % 4) ++
         " (" ++ curve (operatorSlot v ⟨5 - i.val, by omega⟩ ⟨11, by omega⟩ % 4) ++ ")"),
       .text ("    Right Curve: " ++ pad2 (operatorSlot v ⟨5 - i.val, by omega⟩ ⟨11, by omega⟩ / 4 % 4) ++
         " (" ++ curve (operatorSlot v ⟨5 - i.val, by omega⟩ ⟨11, by omega⟩ / 4 % 4) ++ ")"),
       .text ("  Oscillator Rate Scale: " ++ pad2 (operatorSlot v ⟨5 - i.val, by omega⟩ ⟨12, by omega⟩ % 8)),
       .text ("  Amp Mod Sense: " ++ pad2 (operatorSlot v ⟨5 - i.val, by omega⟩ ⟨13, by omega⟩ % 4)),
       .text ("  Key Velocity Sense: " ++ pad2 (operatorSlot v ⟨5 - i.val, by omega⟩ ⟨13, by omega⟩ / 4 % 8)),
       .text ("  Output Level: " ++ pad2 (operatorSlot v ⟨5 - i.val, by omega⟩ ⟨14, by omega⟩)),
       .text ("  Oscillator Mode: " ++ pad2 (operatorSlot v ⟨5 - i.val, by omega⟩ ⟨15, by omega⟩ % 2) ++
         " (" ++ mode (operatorSlot v ⟨5 - i.val, by omega⟩ ⟨15, by omega⟩ % 2) ++ ")"),
       .freq (frequencyCourseLine (decodeOperator (operatorSlot v ⟨5 - i.val, by omega⟩))),
       .text ("  Frequency Fine: " ++ pad2 (operatorSlot v ⟨5 - i.val, by omega⟩ ⟨16, by omega⟩)),
       .text ("  Detune: " ++ pad2 (operatorSlot v ⟨5 - i.val, by omega⟩ ⟨12, by omega⟩ / 8 % 16))] := by
  and_intros <;> rfl

/-- C9 counterexample: for a voice whose decoded algorithm field is 0,
the "Algorithm:" line prints "01", not the 2-digit rendering "00" of the
decoded raw value — the algorithm selector is printed with +1. -/
theorem algorithm_line_counterexample :
    (decodeVoice (fun _ => 0)).algorithm = 0 ∧
    (renderVoice "bank.syx" 1 (decodeVoice (fun _ => 0))).algorithmLine =
      Line.text "Algorithm: 01" ∧
    (renderVoice "bank.syx" 1 (decodeVoice (fun _ => 0))).algorithmLine ≠
      Line.text ("Algorithm: " ++ pad2 ((decodeVoice (fun _ => 0)).algorithm)) := by
  refine ⟨rfl, by decide, ?_⟩
  decide

/-- C10: the oscillator-key-sync and LFO-key-sync fields decode from
1-bit fields, so they are always 0 or 1, `onOff` never yields the
out-of-range sentinel on them, and the rendered key-sync annotations are
exactly "(Off)" or "(On)". -/
theorem key_sync_in_range (v : Fin 128 → ℕ) (filename : String) (num : ℕ) :
    ((decodeVoice v).oscillatorKeySync = 0 ∨ (decodeVoice v).oscillatorKeySync = 1) ∧
    ((decodeVoice v).lfoKeySync = 0 ∨ (decodeVoice v).lfoKeySync = 1) ∧
    onOff ((decodeVoice v).oscillatorKeySync) ≠ "*out of range*" ∧
    onOff ((decodeVoice v).lfoKeySync) ≠ "*out of range*" ∧
    (onOff ((decodeVoice v).oscillatorKeySync) = "Off" ∨
      onOff ((decodeVoice v).oscillatorKeySync) = "On") ∧
    (onOff ((decodeVoice v).lfoKeySync) = "Off" ∨
      onOff ((decodeVoice v).lfoKeySync) = "On") ∧
    ((renderVoice filename num (decodeVoice v)).oscKeySyncLine =
        .text ("Oscillator Key Sync: " ++ pad2 ((decodeVoice v).oscillatorKeySync) ++ " (Off)") ∨
      (renderVoice filename num (decodeVoice v)).oscKeySyncLine =
        .text ("Oscillator Key Sync: " ++ pad2 ((decodeVoice v).oscillatorKeySync) ++ " (On)")) := by
  obtain he1 | he1 := Nat.mod_two_eq_zero_or_one (v ⟨111, by omega⟩ / 8) <;>
    obtain he2 | he2 := Nat.mod_two_eq_zero_or_one (v ⟨116, by omega⟩) <;>
      simp only [renderVoice, decodeVoice] <;> rw [he1, he2] <;> decide
